import Mathlib

/-!
Shallow embedding of the artefact integrity and access-control pipeline of the
Secure Music Copyright application (files `encryption.py`, `checksum.py`,
`user_manager.py`, `database.py`, `artefact_manager.py`).

Bytes are modelled as `List Nat`.  Sources of nondeterminism that the Python
code obtains from the environment (the 12-byte random nonce from
`os.urandom(12)`, wall-clock timestamps from `datetime.now()`, and the content
of files on disk) are passed to the embedded functions as explicit arguments.
A Python function that may raise an exception is embedded as a function into
`Except PyErr _`; an `Except.error` value means the exception escapes the
function, while exceptions that the function itself catches are folded into
its normal return value exactly as the `try/except` blocks of the source do.
-/

/-- A Python exception value, as far as the embedded code distinguishes them:
`ValueError(msg)`, `FileNotFoundError(msg)`, and the cryptography library's
`InvalidTag` raised on an authentication-tag check failure. -/
inductive PyErr where
  | valueError (msg : String)
  | fileNotFoundError (msg : String)
  | invalidTag
deriving Repr, DecidableEq

/-- Modelled from the spec: a deterministic 32-bit mixing function used as the
building block of the models of the external cryptographic primitives
(`hashlib.sha256` and the AES-GCM cipher of the `cryptography` library), which
are external collaborators whose internals are outside the repository.  Only
determinism and the input/output layout of those primitives matter to the
claims; this concrete executable stand-in provides exactly that. -/
def mix32 (xs : List Nat) : Nat :=
  xs.foldl (fun a b => (a * 131 + b + 17) % 4294967296) 5381

/-- One byte of the (modelled) AES-CTR keystream for a key/nonce pair. -/
def keystreamByte (key nonce : List Nat) (i : Nat) : Nat :=
  mix32 (key ++ nonce ++ [i]) % 256

/-- XOR a byte list against the keystream starting at block index `i`:
the body of the (modelled) counter-mode encryption, an involution. -/
def xorKeystream (key nonce : List Nat) : Nat → List Nat → List Nat
  | _, [] => []
  | i, b :: bs => (b ^^^ keystreamByte key nonce i) :: xorKeystream key nonce (i + 1) bs

/-- The 16-byte (128-bit) authentication tag of the modelled AES-GCM cipher,
computed over key, nonce and ciphertext. -/
def gcmTag (key nonce ct : List Nat) : List Nat :=
  (List.range 16).map fun j => mix32 (key ++ nonce ++ ct ++ [j, 251]) % 256

/-- Modelled from the spec: `AESGCM(key).encrypt(nonce, data, None)` of the
`cryptography` library (external collaborator) — authenticated encryption
returning ciphertext with the 128-bit tag appended. -/
def aesgcmEncrypt (key nonce data : List Nat) : List Nat :=
  let ct := xorKeystream key nonce 0 data
  ct ++ gcmTag key nonce ct

/-- Modelled from the spec: `AESGCM(key).decrypt(nonce, payload, None)` of the
`cryptography` library (external collaborator) — splits off the trailing
16-byte tag, recomputes it, and fails (raises `InvalidTag`, here `none`)
unless it matches. -/
def aesgcmDecrypt (key nonce payload : List Nat) : Option (List Nat) :=
  if payload.length < 16 then none
  else
    let ct := payload.take (payload.length - 16)
    let tg := payload.drop (payload.length - 16)
    if tg = gcmTag key nonce ct then some (xorKeystream key nonce 0 ct) else none

/-- `AES256GCMStrategy.encrypt(data, key)` (`encryption.py` lines 31-40):
draws a random 12-byte nonce (passed here as the explicit `nonce` argument),
encrypts, and returns `nonce + ciphertext`. -/
def AES256GCMStrategy.encrypt (data key nonce : List Nat) : List Nat :=
  nonce ++ aesgcmEncrypt key nonce data

/-- `AES256GCMStrategy.decrypt(encrypted_data, key)` (`encryption.py` lines
42-51): the nonce is the first 12 bytes, the rest is ciphertext-with-tag;
a tag-check failure surfaces as the `InvalidTag` exception. -/
def AES256GCMStrategy.decrypt (encrypted_data key : List Nat) : Except PyErr (List Nat) :=
  let nonce := encrypted_data.take 12
  let ciphertext := encrypted_data.drop 12
  match aesgcmDecrypt key nonce ciphertext with
  | some pt => Except.ok pt
  | none => Except.error PyErr.invalidTag

/-- `EncryptionManager.set_key(key)` (`encryption.py` lines 79-83): raises
`ValueError("key must be 32 bytes")` unless the key is exactly 32 bytes;
on success the key becomes the manager's current key (returned here as the
new key state). -/
def EncryptionManager.set_key (key : List Nat) : Except PyErr (List Nat) :=
  if key.length ≠ 32 then Except.error (PyErr.valueError "key must be 32 bytes")
  else Except.ok key

/-- `EncryptionManager.encrypt_data(data)` (`encryption.py` lines 99-103):
raises `ValueError("need to set key first")` when `self._key is None`,
otherwise delegates to the strategy.  `key?` is the manager's `_key` field
and `nonce` the randomness drawn inside the strategy. -/
def EncryptionManager.encrypt_data (key? : Option (List Nat)) (data nonce : List Nat) :
    Except PyErr (List Nat) :=
  match key? with
  | none => Except.error (PyErr.valueError "need to set key first")
  | some key => Except.ok (AES256GCMStrategy.encrypt data key nonce)

/-- `EncryptionManager.decrypt_data(encrypted_data)` (`encryption.py` lines
105-109): raises `ValueError("need to set key first")` when no key is set,
otherwise delegates to the strategy (which may raise `InvalidTag`). -/
def EncryptionManager.decrypt_data (key? : Option (List Nat)) (encrypted_data : List Nat) :
    Except PyErr (List Nat) :=
  match key? with
  | none => Except.error (PyErr.valueError "need to set key first")
  | some key => AES256GCMStrategy.decrypt encrypted_data key

/-- Lower-case hexadecimal digit character for a value `n < 16`
(`'0'..'9'` then `'a'..'f'`). -/
def hexDigitChar (n : Nat) : Char :=
  if n < 10 then Char.ofNat (48 + n) else Char.ofNat (87 + n)

/-- Big-endian 8-hex-digit rendering of a 32-bit word. -/
def hexWord (w : Nat) : List Char :=
  (List.range 8).map fun i => hexDigitChar (w / 16 ^ (7 - i) % 16)

/-- Modelled from the spec: `hashlib.sha256(data).hexdigest()` (external
library) — a deterministic 256-bit-class digest over arbitrary-length input,
rendered as eight 32-bit words in fixed-width lower-case hexadecimal.  The
model keeps exactly the interface properties the claims rely on: it is a pure
function of `data` producing a 64-character hexadecimal string. -/
def sha256_hexdigest (data : List Nat) : String :=
  String.mk (((List.range 8).map fun j => mix32 (j :: data)).map hexWord).flatten

/-- `ChecksumManager.calculate_checksum(data)` (`checksum.py` lines 12-17). -/
def ChecksumManager.calculate_checksum (data : List Nat) : String :=
  sha256_hexdigest data

/-- `ChecksumManager.verify_checksum(data, expected_checksum)`
(`checksum.py` lines 19-23). -/
def ChecksumManager.verify_checksum (data : List Nat) (expected_checksum : String) : Bool :=
  ChecksumManager.calculate_checksum data == expected_checksum

/-- The identity attributes shared by `User` and `AdminUser`
(`user_manager.py` lines 10-18). -/
structure User where
  user_id : Nat
  username : String
  role : String
deriving Repr, DecidableEq

/-- `User.can_view_artefact` (`user_manager.py` lines 46-48): everyone can view. -/
def User.can_view_artefact (_ : User) (_ : Nat) : Bool := true

/-- `User.can_modify_artefact` (`user_manager.py` lines 50-52): only own artefacts. -/
def User.can_modify_artefact (u : User) (artefact_owner_id : Nat) : Bool :=
  u.user_id == artefact_owner_id

/-- `User.can_delete_artefact` (`user_manager.py` lines 54-56): only own artefacts. -/
def User.can_delete_artefact (u : User) (artefact_owner_id : Nat) : Bool :=
  u.user_id == artefact_owner_id

/-- `AdminUser.can_modify_artefact` (`user_manager.py` lines 61-63): any artefact. -/
def AdminUser.can_modify_artefact (_ : User) (_ : Nat) : Bool := true

/-- `AdminUser.can_delete_artefact` (`user_manager.py` lines 65-67): any artefact. -/
def AdminUser.can_delete_artefact (_ : User) (_ : Nat) : Bool := true

/-- A principal at a call site of the manager: dynamically either a plain
`User` or an `AdminUser` (which inherits `can_view_artefact` and overrides
the modify/delete checks).  The variant is fixed at construction/login time
(`UserManager.register_user` / `UserManager.login`). -/
inductive Principal where
  | standard (u : User)
  | admin (u : User)
deriving Repr, DecidableEq

/-- The `user_id` property of either variant. -/
def Principal.user_id : Principal → Nat
  | .standard u => u.user_id
  | .admin u => u.user_id

/-- Dynamic dispatch of `can_view_artefact`: `AdminUser` inherits the `User`
implementation. -/
def Principal.can_view_artefact : Principal → Nat → Bool
  | .standard u, owner => User.can_view_artefact u owner
  | .admin u, owner => User.can_view_artefact u owner

/-- Dynamic dispatch of `can_modify_artefact`. -/
def Principal.can_modify_artefact : Principal → Nat → Bool
  | .standard u, owner => User.can_modify_artefact u owner
  | .admin u, owner => AdminUser.can_modify_artefact u owner

/-- Dynamic dispatch of `can_delete_artefact`. -/
def Principal.can_delete_artefact : Principal → Nat → Bool
  | .standard u, owner => User.can_delete_artefact u owner
  | .admin u, owner => AdminUser.can_delete_artefact u owner

/-- A row of the `artefacts` table (`database.py` lines 53-66). -/
structure ArtefactRow where
  artefact_id : Nat
  owner_id : Nat
  artefact_name : String
  artefact_type : String
  file_path : String
  encrypted_data : List Nat
  checksum : String
  created_at : String
  modified_at : Option String
deriving Repr, DecidableEq

/-- The artefact store held by the singleton `DatabaseManager`:
the rows of the `artefacts` table plus the next AUTOINCREMENT id. -/
structure Db where
  rows : List ArtefactRow
  next_id : Nat
deriving Repr, DecidableEq

/-- `DatabaseManager.get_artefact(artefact_id)` (`database.py` lines 126-134):
`SELECT * FROM artefacts WHERE artefact_id = ?`, first row or `None`. -/
def DatabaseManager.get_artefact (db : Db) (artefact_id : Nat) : Option ArtefactRow :=
  db.rows.find? fun r => r.artefact_id == artefact_id

/-- `DatabaseManager.create_artefact(...)` (`database.py` lines 113-124):
INSERT of a new row (with `modified_at` NULL) returning `lastrowid`.
`created_at` is the `datetime.now().isoformat()` timestamp, passed in. -/
def DatabaseManager.create_artefact (db : Db) (owner_id : Nat)
    (artefact_name artefact_type file_path : String) (encrypted_data : List Nat)
    (checksum : String) (created_at : String) : Nat × Db :=
  let row : ArtefactRow :=
    { artefact_id := db.next_id, owner_id, artefact_name, artefact_type, file_path,
      encrypted_data, checksum, created_at, modified_at := none }
  (db.next_id, { rows := db.rows ++ [row], next_id := db.next_id + 1 })

/-- `DatabaseManager.update_artefact(artefact_id, encrypted_data, checksum)`
(`database.py` lines 168-179): `UPDATE artefacts SET encrypted_data = ?,
checksum = ?, modified_at = ? WHERE artefact_id = ?`; returns
`rowcount > 0`.  `modified_at` is `datetime.now().isoformat()`, passed in. -/
def DatabaseManager.update_artefact (db : Db) (artefact_id : Nat)
    (encrypted_data : List Nat) (checksum : String) (modified_at : String) : Bool × Db :=
  let rows := db.rows.map fun r =>
    if r.artefact_id == artefact_id then
      { r with encrypted_data, checksum, modified_at := some modified_at }
    else r
  (db.rows.any fun r => r.artefact_id == artefact_id, { db with rows })

/-- `DatabaseManager.delete_artefact(artefact_id)` (`database.py` lines
181-188): `DELETE FROM artefacts WHERE artefact_id = ?`; returns `rowcount > 0`. -/
def DatabaseManager.delete_artefact (db : Db) (artefact_id : Nat) : Bool × Db :=
  (db.rows.any fun r => r.artefact_id == artefact_id,
   { db with rows := db.rows.filter fun r => ¬ r.artefact_id == artefact_id })

/-- One observer notification event: the observer (by registration index)
together with the `(artefact_id, timestamp)` arguments of its
`on_artefact_modified` call. -/
structure NotifyEvent where
  observer : Nat
  artefact_id : Nat
  timestamp : String
deriving Repr, DecidableEq

/-- `ArtefactManager._notify_observers(artefact_id, timestamp)`
(`artefact_manager.py` lines 48-51): calls `on_artefact_modified` on every
registered observer, in registration order; the resulting synchronous call
sequence is returned as a list of events. -/
def ArtefactManager.notify_observers (observers : List Nat) (artefact_id : Nat)
    (timestamp : String) : List NotifyEvent :=
  observers.map fun o => { observer := o, artefact_id, timestamp }

instance {ε α : Type} [DecidableEq ε] [DecidableEq α] : DecidableEq (Except ε α) := fun x y =>
  match x, y with
  | Except.ok a, Except.ok b =>
    if h : a = b then Decidable.isTrue (congrArg Except.ok h)
    else Decidable.isFalse fun hh => h (Except.ok.inj hh)
  | Except.error a, Except.error b =>
    if h : a = b then Decidable.isTrue (congrArg Except.error h)
    else Decidable.isFalse fun hh => h (Except.error.inj hh)
  | Except.ok _, Except.error _ => Decidable.isFalse fun hh => Except.noConfusion hh
  | Except.error _, Except.ok _ => Decidable.isFalse fun hh => Except.noConfusion hh

/-- Result of `ArtefactManager.create_artefact`: the value returned to the
caller (`Except.error` when an exception escapes the method), the database
afterwards, and the observer notifications issued (none in the source). -/
structure CreateResult where
  retval : Except PyErr (Option Nat)
  db : Db
  events : List NotifyEvent
deriving Repr, DecidableEq

/-- `ArtefactManager.create_artefact(owner, file_path, artefact_name,
artefact_type)` (`artefact_manager.py` lines 53-95).  The first two checks
(`artefact_type` whitelist, `os.path.exists`) sit before the `try` block, so
their `ValueError` / `FileNotFoundError` escape the method; exceptions inside
the `try` block are caught and turn into a `None` return.  `file?` is the
content of the file at `file_path` (`none` when the file does not exist),
`nonce` the randomness drawn by the cipher, `created_at` the clock reading. -/
def ArtefactManager.create_artefact (db : Db) (key? : Option (List Nat))
    (observers : List Nat) (owner : Principal) (file_path : String)
    (file? : Option (List Nat)) (artefact_name artefact_type : String)
    (nonce : List Nat) (created_at : String) : CreateResult :=
  if artefact_type ∉ ["lyrics", "score", "audio"] then
    { retval := Except.error
        (PyErr.valueError "Artefact type must be 'lyrics', 'score', or 'audio'"),
      db, events := [] }
  else
    match file? with
    | none =>
      { retval := Except.error (PyErr.fileNotFoundError ("File not found: " ++ file_path)),
        db, events := [] }
    | some file_data =>
      let checksum := ChecksumManager.calculate_checksum file_data
      match EncryptionManager.encrypt_data key? file_data nonce with
      | Except.error _ => { retval := Except.ok none, db, events := [] }
      | Except.ok encrypted_data =>
        let (artefact_id, db') := DatabaseManager.create_artefact db owner.user_id
          artefact_name artefact_type file_path encrypted_data checksum created_at
        { retval := Except.ok (some artefact_id), db := db', events := [] }

/-- The path `ArtefactManager.get_artefact_data` took, distinguishable in the
source by which message it prints before returning: missing row or denied
view (silent `None`), an exception caught by the `except` clause
("Error retrieving artefact"), the checksum-mismatch branch
("WARNING: Checksum mismatch!"), or success. -/
inductive RetrieveOutcome where
  | notFoundOrDenied
  | caughtError (e : PyErr)
  | checksumMismatch
  | success
deriving Repr, DecidableEq

/-- Result of `ArtefactManager.get_artefact_data`: the value returned to the
caller, the bytes written to `output_path` (if any), and the path taken. -/
structure RetrieveResult where
  retval : Option (List Nat)
  written : Option (List Nat)
  outcome : RetrieveOutcome
deriving Repr, DecidableEq

/-- `ArtefactManager.get_artefact_data(artefact_id, user, output_path)`
(`artefact_manager.py` lines 115-155): fetch row (`None` when absent), view
permission check (`None` when denied), decrypt inside `try` (any exception —
in particular the cipher's `InvalidTag` — is caught and turns into a `None`
return), recompute the plaintext checksum and compare to the stored one
(`None` on mismatch, before any write), then optionally write the plaintext
to `output_path` and return it. -/
def ArtefactManager.get_artefact_data (db : Db) (key? : Option (List Nat))
    (artefact_id : Nat) (user : Principal) (output_path : Option String) : RetrieveResult :=
  match DatabaseManager.get_artefact db artefact_id with
  | none => { retval := none, written := none, outcome := RetrieveOutcome.notFoundOrDenied }
  | some artefact =>
    if ¬ user.can_view_artefact artefact.owner_id then
      { retval := none, written := none, outcome := RetrieveOutcome.notFoundOrDenied }
    else
      match EncryptionManager.decrypt_data key? artefact.encrypted_data with
      | Except.error e =>
        { retval := none, written := none, outcome := RetrieveOutcome.caughtError e }
      | Except.ok decrypted_data =>
        let calculated_checksum := ChecksumManager.calculate_checksum decrypted_data
        if calculated_checksum ≠ artefact.checksum then
          { retval := none, written := none, outcome := RetrieveOutcome.checksumMismatch }
        else
          { retval := some decrypted_data,
            written := output_path.map fun _ => decrypted_data,
            outcome := RetrieveOutcome.success }

/-- Result of `ArtefactManager.update_artefact`: the value returned to the
caller (`Except.error` when an exception escapes), the database afterwards,
and the observer notifications issued before returning. -/
structure UpdateResult where
  retval : Except PyErr Bool
  db : Db
  events : List NotifyEvent
deriving Repr, DecidableEq

/-- `ArtefactManager.update_artefact(artefact_id, new_file_path, user)`
(`artefact_manager.py` lines 157-186): fetch row (`False` when absent),
`can_modify_artefact` check (`False` when denied), then an `os.path.exists`
check whose `FileNotFoundError` sits before the `try` block and escapes the
method; inside the `try`, recompute checksum and ciphertext, write both plus
a fresh `modified_at` timestamp through `DatabaseManager.update_artefact`,
and on success notify the observers before returning.  Exceptions inside the
`try` are caught and turn into a `False` return. -/
def ArtefactManager.update_artefact (db : Db) (key? : Option (List Nat))
    (observers : List Nat) (artefact_id : Nat) (new_file_path : String)
    (new_file? : Option (List Nat)) (user : Principal) (nonce : List Nat)
    (now : String) : UpdateResult :=
  match DatabaseManager.get_artefact db artefact_id with
  | none => { retval := Except.ok false, db, events := [] }
  | some artefact =>
    if ¬ user.can_modify_artefact artefact.owner_id then
      { retval := Except.ok false, db, events := [] }
    else
      match new_file? with
      | none =>
        { retval := Except.error
            (PyErr.fileNotFoundError ("File not found: " ++ new_file_path)),
          db, events := [] }
      | some file_data =>
        let checksum := ChecksumManager.calculate_checksum file_data
        match EncryptionManager.encrypt_data key? file_data nonce with
        | Except.error _ => { retval := Except.ok false, db, events := [] }
        | Except.ok encrypted_data =>
          let (success, db') := DatabaseManager.update_artefact db artefact_id
            encrypted_data checksum now
          if success then
            { retval := Except.ok true, db := db',
              events := ArtefactManager.notify_observers observers artefact_id now }
          else
            { retval := Except.ok false, db := db', events := [] }

/-- Result of `ArtefactManager.delete_artefact`: the boolean returned to the
caller, the database afterwards, and the notifications issued (none). -/
structure DeleteResult where
  retval : Bool
  db : Db
  events : List NotifyEvent
deriving Repr, DecidableEq

/-- `ArtefactManager.delete_artefact(artefact_id, user)`
(`artefact_manager.py` lines 188-198): fetch row (`False` when absent),
`can_delete_artefact` check (`False` when denied), then delete. -/
def ArtefactManager.delete_artefact (db : Db) (artefact_id : Nat) (user : Principal) :
    DeleteResult :=
  match DatabaseManager.get_artefact db artefact_id with
  | none => { retval := false, db, events := [] }
  | some artefact =>
    if ¬ user.can_delete_artefact artefact.owner_id then
      { retval := false, db, events := [] }
    else
      let (ok, db') := DatabaseManager.delete_artefact db artefact_id
      { retval := ok, db := db', events := [] }

/-- The metadata dictionary returned by `ArtefactManager.read_artefact`. -/
structure ArtefactInfo where
  artefact_id : Nat
  artefact_name : String
  artefact_type : String
  created_at : String
  modified_at : Option String
  checksum : String
deriving Repr, DecidableEq

/-- `ArtefactManager.read_artefact(artefact_id, user)` (`artefact_manager.py`
lines 97-113): fetch row, view permission check, metadata only — `None` when
the row is absent or the view is denied, indistinguishably. -/
def ArtefactManager.read_artefact (db : Db) (artefact_id : Nat) (user : Principal) :
    Option ArtefactInfo :=
  match DatabaseManager.get_artefact db artefact_id with
  | none => none
  | some artefact =>
    if ¬ user.can_view_artefact artefact.owner_id then none
    else some
      { artefact_id := artefact.artefact_id, artefact_name := artefact.artefact_name,
        artefact_type := artefact.artefact_type, created_at := artefact.created_at,
        modified_at := artefact.modified_at, checksum := artefact.checksum }

/-- `True` iff a character is a lower-case hexadecimal digit (`0-9a-f`). -/
def isLowerHexDigit (c : Char) : Bool :=
  (48 ≤ c.toNat && c.toNat ≤ 57) || (97 ≤ c.toNat && c.toNat ≤ 102)

theorem xorKeystream_xorKeystream (key nonce : List Nat) (i : Nat) (data : List Nat) :
    xorKeystream key nonce i (xorKeystream key nonce i data) = data := by
  induction data generalizing i with
  | nil => simp [xorKeystream]
  | cons b bs ih => simp [xorKeystream, ih, Nat.xor_cancel_right]

theorem gcmTag_length (key nonce ct : List Nat) : (gcmTag key nonce ct).length = 16 := by
  simp [gcmTag]

theorem aesgcmDecrypt_append (key nonce ct : List Nat) :
    aesgcmDecrypt key nonce (ct ++ gcmTag key nonce ct) = some (xorKeystream key nonce 0 ct) := by
  have hlen : (ct ++ gcmTag key nonce ct).length = ct.length + 16 := by
    simp [gcmTag_length]
  simp only [aesgcmDecrypt, hlen, Nat.add_sub_cancel]
  rw [if_neg (by omega)]
  rw [List.take_left, List.drop_left, if_pos rfl]

theorem aesgcm_enc_dec (key nonce data : List Nat) :
    aesgcmDecrypt key nonce (aesgcmEncrypt key nonce data) = some data := by
  unfold aesgcmEncrypt
  rw [aesgcmDecrypt_append, xorKeystream_xorKeystream]

theorem strategy_enc_dec (data key nonce : List Nat) (hn : nonce.length = 12) :
    AES256GCMStrategy.decrypt (AES256GCMStrategy.encrypt data key nonce) key =
      Except.ok data := by
  unfold AES256GCMStrategy.encrypt AES256GCMStrategy.decrypt
  have htake : (nonce ++ aesgcmEncrypt key nonce data).take 12 = nonce := by
    rw [← hn]; exact List.take_left nonce _
  have hdrop : (nonce ++ aesgcmEncrypt key nonce data).drop 12 = aesgcmEncrypt key nonce data := by
    rw [← hn]; exact List.drop_left nonce _
  rw [htake, hdrop]
  simp only [aesgcm_enc_dec]

theorem can_view_artefact_true (user : Principal) (owner : Nat) :
    user.can_view_artefact owner = true := by
  cases user <;> rfl

theorem hexWord_length (w : Nat) : (hexWord w).length = 8 := by simp [hexWord]

theorem sha256_hexdigest_length (data : List Nat) : (sha256_hexdigest data).length = 64 := by
  show (String.mk _).length = 64
  simp only [String.length, List.length_flatten, List.map_map, Function.comp_def, hexWord_length]
  decide

theorem hexDigitChar_hex (n : Nat) : isLowerHexDigit (hexDigitChar (n % 16)) = true := by
  have h : n % 16 < 16 := Nat.mod_lt _ (by norm_num)
  have hall : ∀ m, m < 16 → isLowerHexDigit (hexDigitChar m) = true := by decide
  exact hall _ h

theorem sha256_hexdigest_all_hex (data : List Nat) :
    (sha256_hexdigest data).data.all isLowerHexDigit = true := by
  rw [List.all_eq_true]
  intro c hc
  have hc' : c ∈ (((List.range 8).map fun j => mix32 (j :: data)).map hexWord).flatten := hc
  rw [List.mem_flatten] at hc'
  obtain ⟨l, hl, hcl⟩ := hc'
  rw [List.mem_map] at hl
  obtain ⟨w, _, rfl⟩ := hl
  rw [hexWord, List.mem_map] at hcl
  obtain ⟨i, _, rfl⟩ := hcl
  exact hexDigitChar_hex _

/-- C1: for every plaintext byte sequence `p` and every 32-byte key `k`,
decrypting the payload produced by encrypting `p` under `k` (payload =
12-byte nonce immediately followed by ciphertext-with-embedded-tag) returns
exactly `p`. -/
theorem C1_encrypt_decrypt_round_trip (p k nonce : List Nat)
    (hk : k.length = 32) (hn : nonce.length = 12) :
    AES256GCMStrategy.decrypt (AES256GCMStrategy.encrypt p k nonce) k = Except.ok p :=
  strategy_enc_dec p k nonce hn

set_option maxRecDepth 100000 in
theorem C1_encrypt_decrypt_round_trip_witness :
    (List.replicate 32 7 : List Nat).length = 32
    ∧ (List.replicate 12 3 : List Nat).length = 12
    ∧ AES256GCMStrategy.decrypt
        (AES256GCMStrategy.encrypt [104, 105] (List.replicate 32 7) (List.replicate 12 3))
        (List.replicate 32 7) = Except.ok [104, 105] :=
  ⟨by decide, by decide,
   C1_encrypt_decrypt_round_trip [104, 105] (List.replicate 32 7) (List.replicate 12 3)
     (by decide) (by decide)⟩

/-- C5: two calls of `encrypt` on the identical plaintext under the same key
produce different payloads — each call draws a fresh random 12-byte nonce,
modelled as two distinct nonce inputs — while both payloads decrypt back to
that plaintext. -/
theorem C5_nonce_freshness (p k n₁ n₂ : List Nat) (hk : k.length = 32)
    (h₁ : n₁.length = 12) (h₂ : n₂.length = 12) (hne : n₁ ≠ n₂) :
    AES256GCMStrategy.encrypt p k n₁ ≠ AES256GCMStrategy.encrypt p k n₂
    ∧ AES256GCMStrategy.decrypt (AES256GCMStrategy.encrypt p k n₁) k = Except.ok p
    ∧ AES256GCMStrategy.decrypt (AES256GCMStrategy.encrypt p k n₂) k = Except.ok p := by
  refine ⟨?_, strategy_enc_dec p k n₁ h₁, strategy_enc_dec p k n₂ h₂⟩
  intro h
  exact hne (List.append_inj h (h₁.trans h₂.symm)).1

set_option maxRecDepth 100000 in
theorem C5_nonce_freshness_witness :
    AES256GCMStrategy.encrypt [104, 105] (List.replicate 32 7) (List.replicate 12 3) ≠
      AES256GCMStrategy.encrypt [104, 105] (List.replicate 32 7) (List.replicate 12 4)
    ∧ AES256GCMStrategy.decrypt
        (AES256GCMStrategy.encrypt [104, 105] (List.replicate 32 7) (List.replicate 12 3))
        (List.replicate 32 7) = Except.ok [104, 105]
    ∧ AES256GCMStrategy.decrypt
        (AES256GCMStrategy.encrypt [104, 105] (List.replicate 32 7) (List.replicate 12 4))
        (List.replicate 32 7) = Except.ok [104, 105] :=
  C5_nonce_freshness [104, 105] (List.replicate 32 7) (List.replicate 12 3)
    (List.replicate 12 4) (by decide) (by decide) (by decide) (by decide)

/-- C3: a standard principal's `can_view_artefact` returns true for every
owner identifier, and its `can_modify_artefact` and `can_delete_artefact`
return true if and only if the principal's own identifier equals the supplied
owner identifier; an admin principal's three checks return true always. -/
theorem C3_permission_model (u : User) (owner : Nat) :
    (Principal.standard u).can_view_artefact owner = true
    ∧ ((Principal.standard u).can_modify_artefact owner = true ↔ u.user_id = owner)
    ∧ ((Principal.standard u).can_delete_artefact owner = true ↔ u.user_id = owner)
    ∧ (Principal.admin u).can_view_artefact owner = true
    ∧ (Principal.admin u).can_modify_artefact owner = true
    ∧ (Principal.admin u).can_delete_artefact owner = true := by
  simp [Principal.can_view_artefact, Principal.can_modify_artefact,
    Principal.can_delete_artefact, User.can_view_artefact, User.can_modify_artefact,
    User.can_delete_artefact, AdminUser.can_modify_artefact, AdminUser.can_delete_artefact]

/-- C9: `verify_checksum b e` returns true iff `calculate_checksum b` equals
`e`, and `calculate_checksum` is deterministic and returns a fixed-length
(64-character) lower-case hexadecimal string. -/
theorem C9_checksum_contract (b : List Nat) (e : String) :
    (ChecksumManager.verify_checksum b e = true ↔ ChecksumManager.calculate_checksum b = e)
    ∧ (∀ b₂ : List Nat, b₂ = b →
        ChecksumManager.calculate_checksum b₂ = ChecksumManager.calculate_checksum b)
    ∧ (ChecksumManager.calculate_checksum b).length = 64
    ∧ (ChecksumManager.calculate_checksum b).data.all isLowerHexDigit = true := by
  refine ⟨?_, ?_, sha256_hexdigest_length b, sha256_hexdigest_all_hex b⟩
  · simp [ChecksumManager.verify_checksum]
  · intro b₂ hb
    rw [hb]

theorem C9_checksum_contract_witness :
    ChecksumManager.verify_checksum [104] (ChecksumManager.calculate_checksum [104]) = true
    ∧ (ChecksumManager.calculate_checksum [104]).length = 64 :=
  ⟨(C9_checksum_contract [104] (ChecksumManager.calculate_checksum [104])).1.mpr rfl,
   (C9_checksum_contract [104] (ChecksumManager.calculate_checksum [104])).2.2.1⟩

/-- A 32-byte key for concrete instantiations. -/
def demoKey : List Nat := List.replicate 32 7

/-- A 12-byte nonce for concrete instantiations. -/
def demoNonce : List Nat := List.replicate 12 3

/-- A standard user for concrete instantiations. -/
def demoUser : User := { user_id := 1, username := "alice", role := "user" }

/-- A stored artefact row whose payload decrypts fine but whose stored
checksum does not match the plaintext digest. -/
def demoRowBadChecksum : ArtefactRow :=
  { artefact_id := 1, owner_id := 1, artefact_name := "song", artefact_type := "lyrics",
    file_path := "song.txt",
    encrypted_data := AES256GCMStrategy.encrypt [104, 105] demoKey demoNonce,
    checksum := "deadbeef", created_at := "t0", modified_at := none }

/-- A store holding just `demoRowBadChecksum`. -/
def demoDbBadChecksum : Db := { rows := [demoRowBadChecksum], next_id := 2 }

/-- A stored artefact row whose encrypted payload has been corrupted in place
(byte 12, the first ciphertext byte, overwritten) while its checksum still
matches the original plaintext. -/
def demoRowCorrupt : ArtefactRow :=
  { artefact_id := 1, owner_id := 1, artefact_name := "song", artefact_type := "lyrics",
    file_path := "song.txt",
    encrypted_data := (AES256GCMStrategy.encrypt [104, 105] demoKey demoNonce).set 12 0,
    checksum := ChecksumManager.calculate_checksum [104, 105], created_at := "t0",
    modified_at := none }

/-- A store holding just `demoRowCorrupt`. -/
def demoDbCorrupt : Db := { rows := [demoRowCorrupt], next_id := 2 }

/-- An intact stored artefact row (payload and checksum consistent). -/
def demoRowGood : ArtefactRow :=
  { artefact_id := 1, owner_id := 1, artefact_name := "song", artefact_type := "lyrics",
    file_path := "song.txt",
    encrypted_data := AES256GCMStrategy.encrypt [104, 105] demoKey demoNonce,
    checksum := ChecksumManager.calculate_checksum [104, 105], created_at := "t0",
    modified_at := none }

/-- A store holding just `demoRowGood`. -/
def demoDbGood : Db := { rows := [demoRowGood], next_id := 2 }

/-- C2: for every stored artefact record whose payload decrypts successfully
but whose recomputed plaintext digest differs from the stored digest,
`get_artefact_data` returns a null result and writes nothing to the optional
output sink, for every caller and every supplied sink path. -/
theorem C2_digest_mismatch_fails_closed (db : Db) (key? : Option (List Nat))
    (artefact_id : Nat) (user : Principal) (output_path : Option String)
    (artefact : ArtefactRow) (d : List Nat)
    (hget : DatabaseManager.get_artefact db artefact_id = some artefact)
    (hdec : EncryptionManager.decrypt_data key? artefact.encrypted_data = Except.ok d)
    (hmis : ChecksumManager.calculate_checksum d ≠ artefact.checksum) :
    (ArtefactManager.get_artefact_data db key? artefact_id user output_path).retval = none
    ∧ (ArtefactManager.get_artefact_data db key? artefact_id user output_path).written =
      none := by
  unfold ArtefactManager.get_artefact_data
  rw [hget]
  simp [can_view_artefact_true, hdec, hmis]

set_option maxRecDepth 400000 in
theorem C2_digest_mismatch_fails_closed_witness :
    (ArtefactManager.get_artefact_data demoDbBadChecksum (some demoKey) 1
      (Principal.standard demoUser) (some "out.txt")).retval = none
    ∧ (ArtefactManager.get_artefact_data demoDbBadChecksum (some demoKey) 1
      (Principal.standard demoUser) (some "out.txt")).written = none :=
  C2_digest_mismatch_fails_closed demoDbBadChecksum (some demoKey) 1
    (Principal.standard demoUser) (some "out.txt") demoRowBadChecksum [104, 105]
    (by decide) (by decide) (by decide)

/-- C4: when the stored encrypted payload of an artefact fails the cipher's
authentication-tag check, `get_artefact_data` fails along the caught-cipher-
exception path (`InvalidTag`), not along the checksum-mismatch path: the
decryption/authentication check runs before the digest comparison and the
failure is distinguishable from a digest mismatch. -/
theorem C4_auth_failure_before_digest_check (db : Db) (key? : Option (List Nat))
    (artefact_id : Nat) (user : Principal) (output_path : Option String)
    (artefact : ArtefactRow)
    (hget : DatabaseManager.get_artefact db artefact_id = some artefact)
    (hdec : EncryptionManager.decrypt_data key? artefact.encrypted_data =
      Except.error PyErr.invalidTag) :
    (ArtefactManager.get_artefact_data db key? artefact_id user output_path).outcome =
      RetrieveOutcome.caughtError PyErr.invalidTag
    ∧ (ArtefactManager.get_artefact_data db key? artefact_id user output_path).outcome ≠
      RetrieveOutcome.checksumMismatch
    ∧ (ArtefactManager.get_artefact_data db key? artefact_id user output_path).retval =
      none := by
  unfold ArtefactManager.get_artefact_data
  rw [hget]
  simp [can_view_artefact_true, hdec]

set_option maxRecDepth 400000 in
theorem C4_auth_failure_before_digest_check_witness :
    (ArtefactManager.get_artefact_data demoDbCorrupt (some demoKey) 1
      (Principal.standard demoUser) (some "out.txt")).outcome =
      RetrieveOutcome.caughtError PyErr.invalidTag
    ∧ (ArtefactManager.get_artefact_data demoDbCorrupt (some demoKey) 1
      (Principal.standard demoUser) (some "out.txt")).outcome ≠
      RetrieveOutcome.checksumMismatch
    ∧ (ArtefactManager.get_artefact_data demoDbCorrupt (some demoKey) 1
      (Principal.standard demoUser) (some "out.txt")).retval = none :=
  C4_auth_failure_before_digest_check demoDbCorrupt (some demoKey) 1
    (Principal.standard demoUser) (some "out.txt") demoRowCorrupt
    (by decide) (by decide)

/-- C8: `encrypt_data` and `decrypt_data` each fail with the no-key error
(`ValueError("need to set key first")`) when no key is active, `set_key`
fails with `ValueError("key must be 32 bytes")` when the supplied key is not
exactly 32 bytes, and with a 32-byte key set none of the three raises these
errors (decryption can only fail with the cipher's `InvalidTag`). -/
theorem C8_key_configuration_errors (k data nonce payload : List Nat) :
    EncryptionManager.encrypt_data none data nonce =
      Except.error (PyErr.valueError "need to set key first")
    ∧ EncryptionManager.decrypt_data none payload =
      Except.error (PyErr.valueError "need to set key first")
    ∧ (k.length ≠ 32 →
        EncryptionManager.set_key k = Except.error (PyErr.valueError "key must be 32 bytes"))
    ∧ (k.length = 32 →
        EncryptionManager.set_key k = Except.ok k
        ∧ EncryptionManager.encrypt_data (some k) data nonce =
            Except.ok (AES256GCMStrategy.encrypt data k nonce)
        ∧ ∀ e : PyErr, EncryptionManager.decrypt_data (some k) payload = Except.error e →
            e = PyErr.invalidTag) := by
  refine ⟨rfl, rfl, ?_, ?_⟩
  · intro h
    simp [EncryptionManager.set_key, h]
  · intro h
    refine ⟨by simp [EncryptionManager.set_key, h], rfl, ?_⟩
    intro e he
    unfold EncryptionManager.decrypt_data AES256GCMStrategy.decrypt at he
    rcases haes : aesgcmDecrypt k (payload.take 12) (payload.drop 12) with _ | pt <;>
      simp [haes] at he
    exact he.symm

theorem C8_key_configuration_errors_witness :
    EncryptionManager.set_key (List.replicate 31 0) =
      Except.error (PyErr.valueError "key must be 32 bytes")
    ∧ EncryptionManager.set_key (List.replicate 32 0) = Except.ok (List.replicate 32 0)
    ∧ EncryptionManager.encrypt_data none [1] (List.replicate 12 0) =
      Except.error (PyErr.valueError "need to set key first") :=
  ⟨(C8_key_configuration_errors (List.replicate 31 0) [1] (List.replicate 12 0) [0]).2.2.1
     (by decide),
   ((C8_key_configuration_errors (List.replicate 32 0) [1] (List.replicate 12 0) [0]).2.2.2
     (by decide)).1,
   (C8_key_configuration_errors (List.replicate 32 0) [1] (List.replicate 12 0) [0]).1⟩

theorem create_artefact_events_nil (db : Db) (key? : Option (List Nat))
    (observers : List Nat) (owner : Principal) (file_path : String)
    (file? : Option (List Nat)) (artefact_name artefact_type : String)
    (nonce : List Nat) (created_at : String) :
    (ArtefactManager.create_artefact db key? observers owner file_path file?
      artefact_name artefact_type nonce created_at).events = [] := by
  unfold ArtefactManager.create_artefact
  repeat' split
  all_goals rfl

theorem delete_artefact_events_nil (db : Db) (artefact_id : Nat) (user : Principal) :
    (ArtefactManager.delete_artefact db artefact_id user).events = [] := by
  unfold ArtefactManager.delete_artefact
  repeat' split
  all_goals rfl

/-- C7: `update_artefact` notifies every registered observer exactly once with
the artefact identifier and the timestamp, in registration order, exactly when
the update succeeds (returns `True`); a failed update issues no notification,
and `create_artefact` and `delete_artefact` never notify. -/
theorem C7_notify_observers_on_successful_update_only (db : Db)
    (key? : Option (List Nat)) (observers : List Nat) (artefact_id : Nat)
    (new_file_path : String) (new_file? : Option (List Nat)) (user owner : Principal)
    (nonce : List Nat) (now : String) (artefact_name artefact_type : String) :
    ((ArtefactManager.update_artefact db key? observers artefact_id new_file_path
        new_file? user nonce now).retval = Except.ok true →
      (ArtefactManager.update_artefact db key? observers artefact_id new_file_path
        new_file? user nonce now).events =
        observers.map fun o => { observer := o, artefact_id, timestamp := now })
    ∧ ((ArtefactManager.update_artefact db key? observers artefact_id new_file_path
        new_file? user nonce now).retval ≠ Except.ok true →
      (ArtefactManager.update_artefact db key? observers artefact_id new_file_path
        new_file? user nonce now).events = [])
    ∧ (ArtefactManager.create_artefact db key? observers owner new_file_path new_file?
        artefact_name artefact_type nonce now).events = []
    ∧ (ArtefactManager.delete_artefact db artefact_id user).events = [] := by
  refine ⟨?_, ?_, create_artefact_events_nil .., delete_artefact_events_nil ..⟩ <;>
  · unfold ArtefactManager.update_artefact
    rcases hget : DatabaseManager.get_artefact db artefact_id with _ | artefact
    · simp
    · by_cases hperm : user.can_modify_artefact artefact.owner_id
      · rcases new_file? with _ | fd
        · simp [hperm]
        · rcases henc : EncryptionManager.encrypt_data key? fd nonce with err | enc
          · simp [hperm, henc]
          · rcases hdb : DatabaseManager.update_artefact db artefact_id enc
              (ChecksumManager.calculate_checksum fd) now with ⟨succ, db'⟩
            cases succ <;>
              simp [hperm, henc, hdb, ArtefactManager.notify_observers]
      · simp [hperm]

set_option maxRecDepth 400000 in
theorem C7_notify_observers_on_successful_update_only_witness :
    (ArtefactManager.update_artefact demoDbGood (some demoKey) [0, 1] 1 "new.txt"
      (some [119]) (Principal.standard demoUser) demoNonce "t1").events =
      [{ observer := 0, artefact_id := 1, timestamp := "t1" },
       { observer := 1, artefact_id := 1, timestamp := "t1" }] :=
  (C7_notify_observers_on_successful_update_only demoDbGood (some demoKey) [0, 1] 1
    "new.txt" (some [119]) (Principal.standard demoUser) (Principal.standard demoUser)
    demoNonce "t1" "song" "lyrics").1 (by decide)

/-- C10: an `update_artefact` call that fails because the artefact does not
exist or because the caller's `can_modify_artefact` check denies access
returns `False`, leaves the store entirely unchanged, and notifies no
observer. -/
theorem C10_failed_update_frame (db : Db) (key? : Option (List Nat))
    (observers : List Nat) (artefact_id : Nat) (new_file_path : String)
    (new_file? : Option (List Nat)) (user : Principal) (nonce : List Nat) (now : String)
    (h : DatabaseManager.get_artefact db artefact_id = none
      ∨ ∃ artefact, DatabaseManager.get_artefact db artefact_id = some artefact
          ∧ user.can_modify_artefact artefact.owner_id = false) :
    (ArtefactManager.update_artefact db key? observers artefact_id new_file_path
      new_file? user nonce now).retval = Except.ok false
    ∧ (ArtefactManager.update_artefact db key? observers artefact_id new_file_path
      new_file? user nonce now).db = db
    ∧ (ArtefactManager.update_artefact db key? observers artefact_id new_file_path
      new_file? user nonce now).events = [] := by
  rcases h with h | ⟨artefact, hget, hperm⟩
  · unfold ArtefactManager.update_artefact
    rw [h]
    exact ⟨rfl, rfl, rfl⟩
  · unfold ArtefactManager.update_artefact
    rw [hget]
    simp [hperm]

set_option maxRecDepth 400000 in
theorem C10_failed_update_frame_witness :
    (ArtefactManager.update_artefact demoDbGood (some demoKey) [0] 99 "new.txt"
      (some [119]) (Principal.standard demoUser) demoNonce "t1").retval = Except.ok false
    ∧ (ArtefactManager.update_artefact demoDbGood (some demoKey) [0] 99 "new.txt"
      (some [119]) (Principal.standard demoUser) demoNonce "t1").db = demoDbGood
    ∧ (ArtefactManager.update_artefact demoDbGood (some demoKey) [0] 99 "new.txt"
      (some [119]) (Principal.standard demoUser) demoNonce "t1").events = [] :=
  C10_failed_update_frame demoDbGood (some demoKey) [0] 99 "new.txt" (some [119])
    (Principal.standard demoUser) demoNonce "t1" (Or.inl (by decide))

/-- C6 counterexample: a validation failure does escape the Lifecycle Manager
boundary as a raised exception — `create_artefact` with the invalid artefact
type `"video"` raises `ValueError` out of the method instead of returning a
typed failure or null result. -/
theorem C6_counterexample_invalid_type_raises :
    (ArtefactManager.create_artefact { rows := [], next_id := 1 }
      (some demoKey) [] (Principal.standard demoUser) "song.mp4" (some [1, 2])
      "song" "video" demoNonce "t0").retval =
      Except.error (PyErr.valueError "Artefact type must be 'lyrics', 'score', or 'audio'") :=
  rfl

/-- C6 amended: not-found and permission-denied failures are recovered at the
Lifecycle Manager boundary and returned as a null/false result, but
invalid-artefact-type and missing-source-file failures escape
`create_artefact` and `update_artefact` as raised exceptions
(`ValueError` / `FileNotFoundError`) for the caller to catch. -/
theorem C6_amended_boundary_recovery (db : Db) (key? : Option (List Nat))
    (observers : List Nat) (artefact_id : Nat) (file_path : String)
    (file? : Option (List Nat)) (user owner : Principal) (nonce : List Nat)
    (now : String) (artefact_name artefact_type : String) :
    (DatabaseManager.get_artefact db artefact_id = none →
      (ArtefactManager.update_artefact db key? observers artefact_id file_path file?
        user nonce now).retval = Except.ok false
      ∧ (ArtefactManager.delete_artefact db artefact_id user).retval = false
      ∧ ArtefactManager.read_artefact db artefact_id user = none)
    ∧ (∀ artefact, DatabaseManager.get_artefact db artefact_id = some artefact →
        user.can_modify_artefact artefact.owner_id = false →
        (ArtefactManager.update_artefact db key? observers artefact_id file_path file?
          user nonce now).retval = Except.ok false)
    ∧ (∀ artefact, DatabaseManager.get_artefact db artefact_id = some artefact →
        user.can_delete_artefact artefact.owner_id = false →
        (ArtefactManager.delete_artefact db artefact_id user).retval = false)
    ∧ (artefact_type ∉ ["lyrics", "score", "audio"] →
        (ArtefactManager.create_artefact db key? observers owner file_path file?
          artefact_name artefact_type nonce now).retval =
          Except.error
            (PyErr.valueError "Artefact type must be 'lyrics', 'score', or 'audio'"))
    ∧ (artefact_type ∈ ["lyrics", "score", "audio"] → file? = none →
        (ArtefactManager.create_artefact db key? observers owner file_path file?
          artefact_name artefact_type nonce now).retval =
          Except.error (PyErr.fileNotFoundError ("File not found: " ++ file_path)))
    ∧ (∀ artefact, DatabaseManager.get_artefact db artefact_id = some artefact →
        user.can_modify_artefact artefact.owner_id = true → file? = none →
        (ArtefactManager.update_artefact db key? observers artefact_id file_path file?
          user nonce now).retval =
          Except.error (PyErr.fileNotFoundError ("File not found: " ++ file_path))) := by
  refine ⟨?_, ?_, ?_, ?_, ?_, ?_⟩
  · intro h
    unfold ArtefactManager.update_artefact ArtefactManager.delete_artefact
      ArtefactManager.read_artefact
    rw [h]
    exact ⟨rfl, rfl, rfl⟩
  · intro artefact hget hperm
    unfold ArtefactManager.update_artefact
    rw [hget]
    simp [hperm]
  · intro artefact hget hperm
    unfold ArtefactManager.delete_artefact
    rw [hget]
    simp [hperm]
  · intro h
    unfold ArtefactManager.create_artefact
    rw [if_pos h]
  · intro ht hf
    unfold ArtefactManager.create_artefact
    rw [if_neg (by simp [ht]), hf]
  · intro artefact hget hperm hf
    unfold ArtefactManager.update_artefact
    rw [hget]
    simp [hperm, hf]

set_option maxRecDepth 400000 in
theorem C6_amended_boundary_recovery_witness :
    (ArtefactManager.update_artefact demoDbGood (some demoKey) [] 99 "new.txt"
      (some [119]) (Principal.standard demoUser) demoNonce "t1").retval = Except.ok false
    ∧ (ArtefactManager.create_artefact demoDbGood (some demoKey) []
      (Principal.standard demoUser) "song.txt" none "song" "lyrics" demoNonce
      "t0").retval = Except.error (PyErr.fileNotFoundError "File not found: song.txt") :=
  ⟨((C6_amended_boundary_recovery demoDbGood (some demoKey) [] 99 "new.txt" (some [119])
      (Principal.standard demoUser) (Principal.standard demoUser) demoNonce "t1" "song"
      "lyrics").1 (by decide)).1,
   (C6_amended_boundary_recovery demoDbGood (some demoKey) [] 1 "song.txt" none
      (Principal.standard demoUser) (Principal.standard demoUser) demoNonce "t0" "song"
      "lyrics").2.2.2.2.1 (by decide) rfl⟩
